import Mathlib

/-
  Verification development for the pytypedecl front end
  (src/parse/parser.py): tokenizer, grammar and semantic actions for the
  type declaration language, shallowly embedded as executable Lean
  definitions, plus theorems settling the frozen claims about it.
-/

namespace Pytd

/-- Numeric literal value produced by t_NUMBER: an int when the matched text
has no decimal point, a float otherwise.  The float is kept as its matched
source text; nothing downstream computes with numeric values. -/
inductive NumVal where
  | int (i : Int)
  | float (raw : String)
deriving DecidableEq, Repr

/-- Value wrapped by a constant type: a decoded string literal or a number. -/
inductive ConstVal where
  | str (s : String)
  | num (v : NumVal)
deriving DecidableEq, Repr

/-- Modelled from the spec: the declaration-tree node library (the pytd
module) is missing from src/ and is an external collaborator exposing one
immutable value variant per compound-type form (spec section 3 and section 6).
No variant is a subtype of another, so the parser's isinstance tests
distinguish exactly these constructors. -/
inductive PyType where
  | BasicType (name : String)
  | NoneAbleType (base_type : PyType)
  | ConstType (value : ConstVal)
  | UnionType (type_list : List PyType)
  | IntersectionType (type_list : List PyType)
  | GenericType1 (base_type : PyType) (type1 : PyType)
  | GenericType2 (base_type : PyType) (type1 : PyType) (type2 : PyType)
  | UnknownType
  | OptionalUnknownType
  | VarArgType
  | VarKeywordArgType
deriving Repr

/-- Modelled from the spec (section 3): a parameter is a name plus a type. -/
structure Parameter where
  name : String
  type : PyType
deriving Repr

/-- Modelled from the spec (section 3): a bound type parameter with a fixed
rank placeholder, always 0 at parse time. -/
structure TemplateItem where
  name : String
  within_type : PyType
  rank : Nat
deriving Repr

/-- Modelled from the spec (section 3): wraps a single declared exception
type. -/
structure ExceptionDef where
  containing_type : PyType
deriving Repr

/-- Modelled from the spec (section 3): a function declaration.  Field order
follows the keyword arguments at the p_funcdef construction site. -/
structure Function where
  name : String
  params : List Parameter
  return_type : PyType
  exceptions : List ExceptionDef
  template : List TemplateItem
  provenance : String
  signature : Option String
deriving Repr

/-- Modelled from the spec (section 3): an interface method stub, name only. -/
structure MinimalFunction where
  name : String
deriving DecidableEq, Repr

/-- Modelled from the spec (section 3): a class declaration. -/
structure Class where
  name : String
  parents : List String
  funcs : List Function
  template : List TemplateItem
deriving Repr

/-- Modelled from the spec (section 3): an interface declaration. -/
structure Interface where
  name : String
  parents : List String
  attrs : List MinimalFunction
  template : List TemplateItem
deriving Repr

/-- Modelled from the spec (section 3): a module-level constant, parsed and
then dropped.  The construction site (p_constantdef, src line 300) passes
p[2] - the text of the COLON token - as the second argument rather than the
parsed compound type p[3]; we record that faithfully.  The value is
discarded by p_funcdefs_constant regardless. -/
structure ConstantDef where
  name : String
  value : String
deriving DecidableEq, Repr

/-- Modelled from the spec (section 3): the Module, sole root of one parse.
Constructor argument order mirrors the call TypeDeclUnit(p[3], p[2], p[1])
in p_defs: interfaces, classes, functions. -/
structure TypeDeclUnit where
  interfacedefs : List Interface
  classdefs : List Class
  funcdefs : List Function
deriving Repr

/-- Modelled from the spec (sections 1 and 6): the template-expansion pass is
an external collaborator, a pure function from (Module, empty initial
bindings) to a finished Module, invoked once on the freshly built tree; its
internals are out of scope, so it is modelled as the identity on the
Module. -/
def ExpandTemplates (m : TypeDeclUnit) (_bindings : List TemplateItem) : TypeDeclUnit := m

/-! ## Tokens (PyLexer) -/

/-- Token kinds of PyLexer, including the reserved words that t_NAME
reclassifies via the reserved table. -/
inductive Tok where
  | ARROW | ASTERISK | AT | COLON | COMMA | DOT | INTERSECT
  | LBRACKET | LPAREN | MINUS | PLUS | QUESTION | RBRACKET | RPAREN
  | SUBCLASS | UNION
  | NAME (s : String)
  | NUMBER (v : NumVal)
  | STRING (s : String)
  | CLASS | DEF | INTERFACE | PASS | RAISE
deriving DecidableEq, Repr

/-- A lexed token with position bookkeeping: the running 1-based line number
and the absolute character offset, as maintained by ply.lex. -/
structure Token where
  tok : Tok
  lineno : Nat
  lexpos : Nat
deriving DecidableEq, Repr

/-- Error value escaping the parse entry point.  syntaxError carries the
arguments of Python's SyntaxError(msg, (filename, lineno, offset, text)) as
built by make_syntax_error.  attributeError models the AttributeError raised
when p_error receives None (token stream exhausted) and make_syntax_error
dereferences p.lexpos.  outOfFuel is an artifact of the fuel-based embedding
and is unreachable for the fuel supplied by Parse. -/
inductive PyError where
  | syntaxError (msg : String) (filename : String) (lineno : Nat) (offset : Nat) (text : String)
  | attributeError
  | outOfFuel
deriving DecidableEq, Repr

/-! ## Diagnostics (make_syntax_error) -/

/-- Newline character. -/
def nlChar : Char := Char.ofNat 10

/-- Backslash character. -/
def bslash : Char := Char.ofNat 92

/-- Single quote character. -/
def squote : Char := Char.ofNat 39

/-- Double quote character. -/
def dquote : Char := Char.ofNat 34

/-- Backtick character. -/
def btick : Char := Char.ofNat 96

/-- Python's data.rfind(c, 0, stop): index of the last occurrence of c at an
index below stop, if any. -/
def rfindBefore (c : Char) (data : List Char) (stop : Nat) : Option Nat :=
  (List.range stop).foldl
    (fun acc i => if data.get? i = some c then some i else acc) none

/-- Embedding of make_syntax_error (src lines 501-514) for a known error
position: computes the offset of the line holding lexpos, the text of that
line, and the 1-based column, and packages them as the SyntaxError value. -/
def make_syntax_error (data : List Char) (filename : String) (msg : String)
    (lineno lexpos : Nat) : PyError :=
  let last_line_offset : Nat :=
    match rfindBefore nlChar data lexpos with
    | some i => i + 1
    | none => 0
  let line : List Char := (data.drop last_line_offset).takeWhile (fun c => c ≠ nlChar)
  .syntaxError msg filename lineno (lexpos - last_line_offset + 1) (String.mk line)

/-! ## Tokenizer (PyLexer rules) -/

/-- Identifier start: [a-zA-Z_]. -/
def isNameStart (c : Char) : Bool := c.isAlpha || c = '_'

/-- Identifier continuation: [a-zA-Z0-9_.]; dots are legal inside a name. -/
def isNameCont (c : Char) : Bool := c.isAlphanum || c = '_' || c = '.'

/-- The reserved-word table of PyLexer: t_NAME reclassifies these matched
identifiers to keyword tokens. -/
def reservedTok (s : String) : Option Tok :=
  if s = "class" then some .CLASS
  else if s = "def" then some .DEF
  else if s = "interface" then some .INTERFACE
  else if s = "pass" then some .PASS
  else if s = "raise" then some .RAISE
  else none

/-- Decimal value of a digit character. -/
def digitVal (c : Char) : Nat := c.toNat - 48

/-- Natural number denoted by a digit string. -/
def natOfDigits (ds : List Char) : Nat :=
  ds.foldl (fun a c => a * 10 + digitVal c) 0

/-- Closing-quote position for t_STRING's regex (greedy with backtracking):
the match ends at the first quote not immediately preceded by a backslash;
if every quote is so preceded, the greedy match extends to the last quote.
Returns the index (within cs, which starts right after the opening quote) of
the closing quote, or none when the regex cannot match. -/
def stringClose (q : Char) (cs : List Char) : Option Nat :=
  let qs := (cs.enum.filter (fun p => p.2 = q)).map (fun p => p.1)
  let unescaped := qs.filter (fun i => i = 0 || cs.get? (i - 1) ≠ some bslash)
  match unescaped with
  | i :: _ => some i
  | [] => qs.getLast?

/-- String-literal escape decoding as performed by eval in t_STRING: the
standard short escapes become their represented characters, an unknown
escape keeps its backslash. -/
def pyDecode : List Char → List Char
  | [] => []
  | [c] => [c]
  | c :: d :: rest =>
    if c = bslash then
      if d = bslash then bslash :: pyDecode rest
      else if d = squote then squote :: pyDecode rest
      else if d = dquote then dquote :: pyDecode rest
      else if d = 'n' then nlChar :: pyDecode rest
      else if d = 't' then Char.ofNat 9 :: pyDecode rest
      else if d = 'r' then Char.ofNat 13 :: pyDecode rest
      else c :: d :: pyDecode rest
    else c :: pyDecode (d :: rest)

/-- One-character punctuation tokens, tried after the two-character ones,
mirroring ply.lex's decreasing-regex-length ordering of string rules. -/
def punct1 (c : Char) : Option Tok :=
  if c = '*' then some .ASTERISK
  else if c = '@' then some .AT
  else if c = ':' then some .COLON
  else if c = ',' then some .COMMA
  else if c = '.' then some .DOT
  else if c = '&' then some .INTERSECT
  else if c = '[' then some .LBRACKET
  else if c = '(' then some .LPAREN
  else if c = '-' then some .MINUS
  else if c = '+' then some .PLUS
  else if c = '?' then some .QUESTION
  else if c = ']' then some .RBRACKET
  else if c = ')' then some .RPAREN
  else if c = '|' then some .UNION
  else none

/-- The tokenizer loop.  At each position the lexer rules are tried in
ply.lex's master-regex order: the function rules t_NAME, t_STRING, t_NUMBER,
t_COMMENT, t_newline in definition order, then the string rules by
decreasing regex length (so ARROW and SUBCLASS before MINUS); whitespace in
t_ignore is skipped first.  Any unmatched character is t_error.  The fuel
only bounds the recursion; every step consumes at least one character, so
data.length + 1 steps always suffice. -/
def tokenize (data : List Char) (filename : String) :
    Nat → List Char → Nat → Nat → List Token → Except PyError (List Token)
  | 0, _, _, _, _ => .error .outOfFuel
  | fuel + 1, cs, pos, lineno, acc =>
    match cs with
    | [] => .ok acc
    | c :: rest =>
      if c = ' ' || c = Char.ofNat 9 then
        tokenize data filename fuel rest (pos + 1) lineno acc
      else if isNameStart c then
        let cont := rest.takeWhile isNameCont
        let word := String.mk (c :: cont)
        let t : Tok :=
          match reservedTok word with
          | some k => k
          | none => .NAME word
        tokenize data filename fuel (rest.drop cont.length)
          (pos + 1 + cont.length) lineno (acc ++ [⟨t, lineno, pos⟩])
      else if c = btick then
        let inner := rest.takeWhile (fun d => d ≠ btick)
        if inner.length < rest.length then
          tokenize data filename fuel (rest.drop (inner.length + 1))
            (pos + inner.length + 2) lineno
            (acc ++ [⟨.NAME (String.mk inner), lineno, pos⟩])
        else
          .error (make_syntax_error data filename
            ("Illegal character " ++ String.mk [squote, c, squote]) lineno pos)
      else if c = squote || c = dquote then
        match stringClose c rest with
        | some close =>
          let content := rest.take close
          tokenize data filename fuel (rest.drop (close + 1))
            (pos + close + 2) lineno
            (acc ++ [⟨.STRING (String.mk (pyDecode content)), lineno, pos⟩])
        | none =>
          .error (make_syntax_error data filename
            ("Illegal character " ++ String.mk [squote, c, squote]) lineno pos)
      else if c.isDigit ||
              ((c = '+' || c = '-') && (match rest with
                | d :: _ => d.isDigit
                | [] => false)) then
        let sign : Int := if c = '-' then -1 else 1
        let body := if c.isDigit then cs else rest
        let signLen := if c.isDigit then 0 else 1
        let digits := body.takeWhile Char.isDigit
        let afterDigits := body.drop digits.length
        match afterDigits with
        | '.' :: rest2 =>
          let frac := rest2.takeWhile Char.isDigit
          let raw := String.mk ((if c.isDigit then [] else [c]) ++ digits ++ '.' :: frac)
          let len := signLen + digits.length + 1 + frac.length
          tokenize data filename fuel (rest2.drop frac.length) (pos + len) lineno
            (acc ++ [⟨.NUMBER (.float raw), lineno, pos⟩])
        | _ =>
          let len := signLen + digits.length
          tokenize data filename fuel afterDigits (pos + len) lineno
            (acc ++ [⟨.NUMBER (.int (sign * (natOfDigits digits : Int))), lineno, pos⟩])
      else if c = '#' then
        let com := rest.takeWhile (fun d => d ≠ nlChar)
        tokenize data filename fuel (rest.drop com.length)
          (pos + 1 + com.length) lineno acc
      else if c = nlChar then
        let nls := rest.takeWhile (fun d => d = nlChar)
        tokenize data filename fuel (rest.drop nls.length)
          (pos + 1 + nls.length) (lineno + 1 + nls.length) acc
      else if c = '-' && rest.head? = some '>' then
        tokenize data filename fuel (rest.drop 1) (pos + 2) lineno
          (acc ++ [⟨.ARROW, lineno, pos⟩])
      else if c = '<' && rest.head? = some '=' then
        tokenize data filename fuel (rest.drop 1) (pos + 2) lineno
          (acc ++ [⟨.SUBCLASS, lineno, pos⟩])
      else
        match punct1 c with
        | some k =>
          tokenize data filename fuel rest (pos + 1) lineno
            (acc ++ [⟨k, lineno, pos⟩])
        | none =>
          .error (make_syntax_error data filename
            ("Illegal character " ++ String.mk [squote, c, squote]) lineno pos)

/-- Tokenize a whole source string, line counter starting at 1 as in
ply.lex. -/
def tokenizeStr (data : String) (filename : String) : Except PyError (List Token) :=
  tokenize data.toList filename (data.toList.length + 1) data.toList 0 1 []

/-- Token list of a source string, for stating concrete facts; empty on a
lexical error. -/
def lexed (s : String) : List Token :=
  match tokenizeStr s "<string>" with
  | .ok ts => ts
  | .error _ => []

/-! ## Parser (PyParser)

The grammar is embedded as a recursive-descent parser equivalent to the
LALR automaton ply.yacc builds from the p_* productions, with the declared
precedence (UNION below INTERSECT, both left-associative) and yacc's
default shift-over-reduce resolution of the params conflicts.  Each
semantic action is transcribed from the corresponding p_* method.  Errors
mirror p_error: a syntax error is reported at the offending lookahead
token via make_syntax_error, and an exhausted token stream reproduces the
AttributeError of make_syntax_error applied to None. -/

/-- Source context the error path needs: the raw data and the diagnostic
filename, as kept by set_parse_info. -/
structure SrcInfo where
  data : List Char
  filename : String
deriving Repr

/-- The value p_error raises for a given lookahead: make_syntax_error at the
offending token, or the AttributeError when ply hands p_error None because
the stream ended prematurely. -/
def perr (si : SrcInfo) : List Token → PyError
  | [] => .attributeError
  | t :: _ => make_syntax_error si.data si.filename "Parse error" t.lineno t.lexpos

/-- Consume one expected token or fail at the lookahead. -/
def expectTok (si : SrcInfo) (k : Tok) (ts : List Token) : Except PyError (List Token) :=
  match ts with
  | t :: r => if t.tok = k then .ok r else .error (perr si ts)
  | [] => .error .attributeError

/-- Consume a NAME token, returning its text. -/
def expectName (si : SrcInfo) (ts : List Token) : Except PyError (String × List Token) :=
  match ts with
  | ⟨.NAME s, _, _⟩ :: r => .ok (s, r)
  | _ => .error (perr si ts)

/-- Semantic action of p_compound_type_union (src lines 425-436): append a
basic right operand to a union on the left, prepend a basic left operand to
a union on the right, else wrap both operands in a fresh 2-element union.
The match arms mirror the isinstance chain in order. -/
def p_compound_type_union (t1 t3 : PyType) : PyType :=
  match t1, t3 with
  | .UnionType l, .BasicType n => .UnionType (l ++ [.BasicType n])
  | .BasicType n, .UnionType r => .UnionType (.BasicType n :: r)
  | _, _ => .UnionType [t1, t3]

/-- Semantic action of p_compound_type_intersect (src lines 412-423),
mirroring the isinstance chain in order. -/
def p_compound_type_intersect (t1 t3 : PyType) : PyType :=
  match t1, t3 with
  | .IntersectionType l, .BasicType n => .IntersectionType (l ++ [.BasicType n])
  | .BasicType n, .IntersectionType r => .IntersectionType (.BasicType n :: r)
  | _, _ => .IntersectionType [t1, t3]

/-- The identifier nonterminal (src lines 396-410): nullable name, name,
string constant or number constant.  The NAME QUESTION arm comes first, as
the automaton shifts QUESTION. -/
def p_identifier (si : SrcInfo) (ts : List Token) : Except PyError (PyType × List Token) :=
  match ts with
  | ⟨.NAME s, _, _⟩ :: ⟨.QUESTION, _, _⟩ :: r => .ok (.NoneAbleType (.BasicType s), r)
  | ⟨.NAME s, _, _⟩ :: r => .ok (.BasicType s, r)
  | ⟨.STRING s, _, _⟩ :: r => .ok (.ConstType (.str s), r)
  | ⟨.NUMBER v, _, _⟩ :: r => .ok (.ConstType (.num v), r)
  | _ => .error (perr si ts)

mutual

/-- The compound_type nonterminal: a chain of intersect-level operands under
UNION, folded left with p_compound_type_union - the layering realizes the
declared precedence (UNION binds loosest) and left associativity. -/
def compound_type (si : SrcInfo) : Nat → List Token → Except PyError (PyType × List Token)
  | 0, _ => .error .outOfFuel
  | fuel + 1, ts =>
    match intersect_chain si fuel ts with
    | .error e => .error e
    | .ok (t, r) => union_loop si fuel t r

/-- Left fold of UNION applications. -/
def union_loop (si : SrcInfo) : Nat → PyType → List Token → Except PyError (PyType × List Token)
  | 0, _, _ => .error .outOfFuel
  | fuel + 1, t, ts =>
    match ts with
    | ⟨.UNION, _, _⟩ :: r =>
      match intersect_chain si fuel r with
      | .error e => .error e
      | .ok (u, r2) => union_loop si fuel (p_compound_type_union t u) r2
    | _ => .ok (t, ts)

/-- A chain of atoms under INTERSECT, folded left with
p_compound_type_intersect. -/
def intersect_chain (si : SrcInfo) : Nat → List Token → Except PyError (PyType × List Token)
  | 0, _ => .error .outOfFuel
  | fuel + 1, ts =>
    match type_atom si fuel ts with
    | .error e => .error e
    | .ok (t, r) => intersect_loop si fuel t r

/-- Left fold of INTERSECT applications. -/
def intersect_loop (si : SrcInfo) : Nat → PyType → List Token → Except PyError (PyType × List Token)
  | 0, _, _ => .error .outOfFuel
  | fuel + 1, t, ts =>
    match ts with
    | ⟨.INTERSECT, _, _⟩ :: r =>
      match type_atom si fuel r with
      | .error e => .error e
      | .ok (u, r2) => intersect_loop si fuel (p_compound_type_intersect t u) r2
    | _ => .ok (t, ts)

/-- An atomic type operand: a parenthesized compound type (p_compound_type_paren,
no node introduced), or an identifier optionally applied to one or two
bracketed type arguments (p_compound_type_generic_1 / p_compound_type_generic_2).
Only an identifier can be the base of a bracket application; after a closing
parenthesis a LBRACKET has no action in the automaton, so it is left for the
caller, where it fails. -/
def type_atom (si : SrcInfo) : Nat → List Token → Except PyError (PyType × List Token)
  | 0, _ => .error .outOfFuel
  | fuel + 1, ts =>
    match ts with
    | ⟨.LPAREN, _, _⟩ :: r =>
      match compound_type si fuel r with
      | .error e => .error e
      | .ok (t, r2) =>
        match expectTok si .RPAREN r2 with
        | .error e => .error e
        | .ok r3 => .ok (t, r3)
    | _ =>
      match p_identifier si ts with
      | .error e => .error e
      | .ok (idv, r) =>
        match r with
        | ⟨.LBRACKET, _, _⟩ :: r2 =>
          match compound_type si fuel r2 with
          | .error e => .error e
          | .ok (t1, r3) =>
            match r3 with
            | ⟨.COMMA, _, _⟩ :: r4 =>
              match compound_type si fuel r4 with
              | .error e => .error e
              | .ok (t2, r5) =>
                match expectTok si .RBRACKET r5 with
                | .error e => .error e
                | .ok r6 => .ok (.GenericType2 idv t1 t2, r6)
            | _ =>
              match expectTok si .RBRACKET r3 with
              | .error e => .error e
              | .ok r4 => .ok (.GenericType1 idv t1, r4)
        | _ => .ok (idv, r)

end

/-- The param nonterminal (src lines 362-374): bare name (unknown type),
name QUESTION (optional-unknown), or name COLON compound_type. -/
def p_param (si : SrcInfo) (fuel : Nat) (ts : List Token) :
    Except PyError (Parameter × List Token) :=
  match ts with
  | ⟨.NAME s, _, _⟩ :: ⟨.QUESTION, _, _⟩ :: r => .ok (⟨s, .OptionalUnknownType⟩, r)
  | ⟨.NAME s, _, _⟩ :: ⟨.COLON, _, _⟩ :: r =>
    match compound_type si fuel r with
    | .error e => .error e
    | .ok (t, r2) => .ok (⟨s, t⟩, r2)
  | ⟨.NAME s, _, _⟩ :: r => .ok (⟨s, .UnknownType⟩, r)
  | _ => .error (perr si ts)

/-- The arg nonterminal (p_arg, src lines 322-324): ASTERISK param; the
resulting Parameter keeps only the inner param's name and gets the vararg
marker type. -/
def p_arg (si : SrcInfo) (fuel : Nat) (ts : List Token) :
    Except PyError (Parameter × List Token) :=
  match ts with
  | ⟨.ASTERISK, _, _⟩ :: r =>
    match p_param si fuel r with
    | .error e => .error e
    | .ok (p, r2) => .ok (⟨p.name, .VarArgType⟩, r2)
  | _ => .error (perr si ts)

/-- The kwarg nonterminal (p_kwarg, src lines 326-328): ASTERISK ASTERISK
param; only the inner param's name is kept, with the kwarg marker type. -/
def p_kwarg (si : SrcInfo) (fuel : Nat) (ts : List Token) :
    Except PyError (Parameter × List Token) :=
  match ts with
  | ⟨.ASTERISK, _, _⟩ :: r =>
    match expectTok si .ASTERISK r with
    | .error e => .error e
    | .ok r2 =>
      match p_param si fuel r2 with
      | .error e => .error e
      | .ok (p, r3) => .ok (⟨p.name, .VarKeywordArgType⟩, r3)
  | _ => .error (perr si ts)

/-- Kind tag distinguishing which of param / arg / kwarg an element of a
parameter list came from; the automaton's behaviour after the element
depends on it. -/
inductive ParamKind where
  | ord | vararg | kw
deriving DecidableEq, Repr

/-- Parse one parameter-list element, dispatching on the lookahead exactly
as the automaton does: ASTERISK ASTERISK starts a kwarg, a single ASTERISK
an arg, anything else a param. -/
def params_item (si : SrcInfo) (fuel : Nat) (ts : List Token) :
    Except PyError ((Parameter × ParamKind) × List Token) :=
  match ts with
  | ⟨.ASTERISK, _, _⟩ :: ⟨.ASTERISK, _, _⟩ :: _ =>
    match p_kwarg si fuel ts with
    | .error e => .error e
    | .ok (p, r) => .ok ((p, .kw), r)
  | ⟨.ASTERISK, _, _⟩ :: _ =>
    match p_arg si fuel ts with
    | .error e => .error e
    | .ok (p, r) => .ok ((p, .vararg), r)
  | _ =>
    match p_param si fuel ts with
    | .error e => .error e
    | .ok (p, r) => .ok ((p, .ord), r)

/-- Continuation of a params list after at least one element (or after the
empty-params reduction when COMMA follows).  On COMMA the automaton shifts
and accepts a param, arg or kwarg; after an arg element, a further COMMA
forces a kwarg (the yacc shift-over-reduce resolution of the conflict
between params COMMA arg COMMA kwarg and reducing params COMMA arg), after
which the list continues normally. -/
def params_loop (si : SrcInfo) : Nat → List Parameter → List Token →
    Except PyError (List Parameter × List Token)
  | 0, _, _ => .error .outOfFuel
  | fuel + 1, acc, ts =>
    match ts with
    | ⟨.COMMA, _, _⟩ :: r =>
      match params_item si fuel r with
      | .error e => .error e
      | .ok ((p, k), r2) =>
        match k with
        | .vararg =>
          match r2 with
          | ⟨.COMMA, _, _⟩ :: r3 =>
            match p_kwarg si fuel r3 with
            | .error e => .error e
            | .ok (q, r4) => params_loop si fuel (acc ++ [p, q]) r4
          | _ => .ok (acc ++ [p], r2)
        | _ => params_loop si fuel (acc ++ [p]) r2
    | _ => .ok (acc, ts)

/-- The params nonterminal (src lines 318-360): empty on a RPAREN lookahead
(and on COMMA, where the empty params reduction feeds the left-recursive
productions), else a first element followed by the loop; a first arg
element followed by COMMA forces a kwarg, as in the loop. -/
def p_params (si : SrcInfo) (fuel : Nat) (ts : List Token) :
    Except PyError (List Parameter × List Token) :=
  match ts with
  | ⟨.RPAREN, _, _⟩ :: _ => .ok ([], ts)
  | ⟨.COMMA, _, _⟩ :: _ => params_loop si fuel [] ts
  | _ =>
    match params_item si fuel ts with
    | .error e => .error e
    | .ok ((p, k), r) =>
      match k with
      | .vararg =>
        match r with
        | ⟨.COMMA, _, _⟩ :: r2 =>
          match p_kwarg si fuel r2 with
          | .error e => .error e
          | .ok (q, r3) => params_loop si fuel [p, q] r3
        | _ => .ok ([p], r)
      | _ => params_loop si fuel [p] r

/-- The template_item nonterminal (src lines 268-274): a name with optional
SUBCLASS bound, defaulting to the universal object type, rank fixed at 0. -/
def p_template_item (si : SrcInfo) (fuel : Nat) (ts : List Token) :
    Except PyError (TemplateItem × List Token) :=
  match ts with
  | ⟨.NAME s, _, _⟩ :: ⟨.SUBCLASS, _, _⟩ :: r =>
    match compound_type si fuel r with
    | .error e => .error e
    | .ok (t, r2) => .ok (⟨s, t, 0⟩, r2)
  | ⟨.NAME s, _, _⟩ :: r => .ok (⟨s, .BasicType "object", 0⟩, r)
  | _ => .error (perr si ts)

/-- COMMA-separated continuation of a templates list. -/
def templates_loop (si : SrcInfo) : Nat → List TemplateItem → List Token →
    Except PyError (List TemplateItem × List Token)
  | 0, _, _ => .error .outOfFuel
  | fuel + 1, acc, ts =>
    match ts with
    | ⟨.COMMA, _, _⟩ :: r =>
      match p_template_item si fuel r with
      | .error e => .error e
      | .ok (it, r2) => templates_loop si fuel (acc ++ [it]) r2
    | _ => .ok (acc, ts)

/-- The template nonterminal (src lines 251-266): a bracketed nonempty
COMMA-separated list of template items, or empty. -/
def p_template (si : SrcInfo) (fuel : Nat) (ts : List Token) :
    Except PyError (List TemplateItem × List Token) :=
  match ts with
  | ⟨.LBRACKET, _, _⟩ :: r =>
    match p_template_item si fuel r with
    | .error e => .error e
    | .ok (it, r2) =>
      match templates_loop si fuel [it] r2 with
      | .error e => .error e
      | .ok (its, r3) =>
        match expectTok si .RBRACKET r3 with
        | .error e => .error e
        | .ok r4 => .ok (its, r4)
  | _ => .ok ([], ts)

/-- COMMA-separated continuation of a parent list. -/
def parent_list_loop (si : SrcInfo) : Nat → List String → List Token →
    Except PyError (List String × List Token)
  | 0, _, _ => .error .outOfFuel
  | fuel + 1, acc, ts =>
    match ts with
    | ⟨.COMMA, _, _⟩ :: r =>
      match expectName si r with
      | .error e => .error e
      | .ok (n, r2) => parent_list_loop si fuel (acc ++ [n]) r2
    | _ => .ok (acc, ts)

/-- The parents nonterminal (src lines 235-249): a parenthesized nonempty
list of names, or empty. -/
def p_parents (si : SrcInfo) (fuel : Nat) (ts : List Token) :
    Except PyError (List String × List Token) :=
  match ts with
  | ⟨.LPAREN, _, _⟩ :: r =>
    match expectName si r with
    | .error e => .error e
    | .ok (n, r2) =>
      match parent_list_loop si fuel [n] r2 with
      | .error e => .error e
      | .ok (ns, r3) =>
        match expectTok si .RPAREN r3 with
        | .error e => .error e
        | .ok r4 => .ok (ns, r4)
  | _ => .ok ([], ts)

/-- The return nonterminal (src lines 310-316): ARROW compound_type, or the
default basic None type. -/
def p_return (si : SrcInfo) (fuel : Nat) (ts : List Token) :
    Except PyError (PyType × List Token) :=
  match ts with
  | ⟨.ARROW, _, _⟩ :: r => compound_type si fuel r
  | _ => .ok (.BasicType "None", ts)

/-- COMMA-separated continuation of an exceptions list (each exception is a
compound_type wrapped by ExceptionDef, src lines 384-394). -/
def exceptions_loop (si : SrcInfo) : Nat → List ExceptionDef → List Token →
    Except PyError (List ExceptionDef × List Token)
  | 0, _, _ => .error .outOfFuel
  | fuel + 1, acc, ts =>
    match ts with
    | ⟨.COMMA, _, _⟩ :: r =>
      match compound_type si fuel r with
      | .error e => .error e
      | .ok (t, r2) => exceptions_loop si fuel (acc ++ [⟨t⟩]) r2
    | _ => .ok (acc, ts)

/-- The raise nonterminal (src lines 376-382): RAISE followed by a nonempty
exceptions list, or the empty default. -/
def p_raise (si : SrcInfo) (fuel : Nat) (ts : List Token) :
    Except PyError (List ExceptionDef × List Token) :=
  match ts with
  | ⟨.RAISE, _, _⟩ :: r =>
    match compound_type si fuel r with
    | .error e => .error e
    | .ok (t, r2) => exceptions_loop si fuel [⟨t⟩] r2
  | _ => .ok ([], ts)

/-- The signature nonterminal (src lines 489-495): AT STRING attached
verbatim, or None. -/
def p_signature (si : SrcInfo) (ts : List Token) :
    Except PyError (Option String × List Token) :=
  match ts with
  | ⟨.AT, _, _⟩ :: ⟨.STRING s, _, _⟩ :: r => .ok (some s, r)
  | ⟨.AT, _, _⟩ :: r => .error (perr si r)
  | _ => .ok (none, ts)

/-- The provenance nonterminal (src lines 470-487): empty (the
approved/unset value is the empty string), or one of the three-token
sentinels, whose matched text is stored. -/
def p_provenance (si : SrcInfo) (ts : List Token) :
    Except PyError (String × List Token) :=
  match ts with
  | ⟨.DOT, _, _⟩ :: r =>
    match expectTok si .DOT r with
    | .error e => .error e
    | .ok r2 =>
      match expectTok si .DOT r2 with
      | .error e => .error e
      | .ok r3 => .ok ("...", r3)
  | ⟨.MINUS, _, _⟩ :: r =>
    match expectTok si .MINUS r with
    | .error e => .error e
    | .ok r2 =>
      match expectTok si .MINUS r2 with
      | .error e => .error e
      | .ok r3 => .ok ("---", r3)
  | ⟨.PLUS, _, _⟩ :: r =>
    match expectTok si .PLUS r with
    | .error e => .error e
    | .ok r2 =>
      match expectTok si .PLUS r2 with
      | .error e => .error e
      | .ok r3 => .ok ("+++", r3)
  | _ => .ok ("", ts)

/-- The funcdef production (src lines 302-308): provenance DEF template NAME
LPAREN params RPAREN return raise signature, assembled with the keyword
arguments of the Function construction. -/
def p_funcdef (si : SrcInfo) (fuel : Nat) (ts : List Token) :
    Except PyError (Function × List Token) := do
  let (prov, ts) ← p_provenance si ts
  let ts ← expectTok si .DEF ts
  let (tmpl, ts) ← p_template si fuel ts
  let (name, ts) ← expectName si ts
  let ts ← expectTok si .LPAREN ts
  let (ps, ts) ← p_params si fuel ts
  let ts ← expectTok si .RPAREN ts
  let (ret, ts) ← p_return si fuel ts
  let (exc, ts) ← p_raise si fuel ts
  let (sig, ts) ← p_signature si ts
  pure (⟨name, ps, ret, exc, tmpl, prov, sig⟩, ts)

/-- The constantdef production (src lines 298-300): NAME COLON compound_type;
the action passes the COLON token text as the recorded value (see
ConstantDef) and the parsed type plays no further role. -/
def p_constantdef (si : SrcInfo) (fuel : Nat) (ts : List Token) :
    Except PyError (ConstantDef × List Token) := do
  let (name, ts) ← expectName si ts
  let ts ← expectTok si .COLON ts
  let (_t, ts) ← compound_type si fuel ts
  pure (⟨name, ":"⟩, ts)

/-- Lookahead classification driving the funcdefs run: DEF or a provenance
sentinel character starts a funcdef, NAME starts a constantdef, anything
else ends the run. -/
inductive FCKind where
  | funcStart | constStart | stop
deriving DecidableEq, Repr

/-- Classify the lookahead for the funcdefs run. -/
def funcdefsHead : List Token → FCKind
  | ⟨.DEF, _, _⟩ :: _ | ⟨.DOT, _, _⟩ :: _ | ⟨.MINUS, _, _⟩ :: _ | ⟨.PLUS, _, _⟩ :: _ =>
    .funcStart
  | ⟨.NAME _, _, _⟩ :: _ => .constStart
  | _ => .stop

/-- The funcdefs nonterminal (src lines 285-296): a left-recursive run of
funcdefs and constantdefs; a funcdef is appended to the accumulated list,
a constantdef is parsed and dropped (p_funcdefs_constant keeps p[1]).  The
run ends at any lookahead that starts neither. -/
def funcdefs_loop (si : SrcInfo) : Nat → List Function → List Token →
    Except PyError (List Function × List Token)
  | 0, _, _ => .error .outOfFuel
  | fuel + 1, acc, ts =>
    match funcdefsHead ts with
    | .funcStart =>
      match p_funcdef si fuel ts with
      | .error e => .error e
      | .ok (f, ts2) => funcdefs_loop si fuel (acc ++ [f]) ts2
    | .constStart =>
      match p_constantdef si fuel ts with
      | .error e => .error e
      | .ok (_, ts2) => funcdefs_loop si fuel acc ts2
    | .stop => .ok (acc, ts)

/-- The class_funcs nonterminal (src lines 211-217): the literal PASS marker
gives an empty body, else a funcdefs run. -/
def p_class_funcs (si : SrcInfo) (fuel : Nat) (ts : List Token) :
    Except PyError (List Function × List Token) :=
  match ts with
  | ⟨.PASS, _, _⟩ :: r => .ok ([], r)
  | _ => funcdefs_loop si fuel [] ts

/-- The classdef production (src lines 205-209): CLASS template NAME parents
COLON class_funcs. -/
def p_classdef (si : SrcInfo) (fuel : Nat) (ts : List Token) :
    Except PyError (Class × List Token) := do
  let ts ← expectTok si .CLASS ts
  let (tmpl, ts) ← p_template si fuel ts
  let (name, ts) ← expectName si ts
  let (ps, ts) ← p_parents si fuel ts
  let ts ← expectTok si .COLON ts
  let (fs, ts) ← p_class_funcs si fuel ts
  pure (⟨name, ps, fs, tmpl⟩, ts)

/-- A CLASS lookahead continues the classdefs run. -/
def classdefsStart : List Token → Bool
  | ⟨.CLASS, _, _⟩ :: _ => true
  | _ => false

/-- The classdefs nonterminal (src lines 194-200): a possibly empty run of
classdefs. -/
def classdefs_loop (si : SrcInfo) : Nat → List Class → List Token →
    Except PyError (List Class × List Token)
  | 0, _, _ => .error .outOfFuel
  | fuel + 1, acc, ts =>
    if classdefsStart ts then
      match p_classdef si fuel ts with
      | .error e => .error e
      | .ok (c, ts2) => classdefs_loop si fuel (acc ++ [c]) ts2
    else .ok (acc, ts)

/-- Continuation of interface_attrs (src lines 277-283): further DEF NAME
stubs. -/
def interface_attrs_loop (si : SrcInfo) : Nat → List MinimalFunction → List Token →
    Except PyError (List MinimalFunction × List Token)
  | 0, _, _ => .error .outOfFuel
  | fuel + 1, acc, ts =>
    match ts with
    | ⟨.DEF, _, _⟩ :: r =>
      match expectName si r with
      | .error e => .error e
      | .ok (n, r2) => interface_attrs_loop si fuel (acc ++ [⟨n⟩]) r2
    | _ => .ok (acc, ts)

/-- The interfacedef production (src lines 228-233): INTERFACE template NAME
parents COLON interface_attrs, the attrs being a nonempty run of DEF NAME
stubs. -/
def p_interfacedef (si : SrcInfo) (fuel : Nat) (ts : List Token) :
    Except PyError (Interface × List Token) := do
  let ts ← expectTok si .INTERFACE ts
  let (tmpl, ts) ← p_template si fuel ts
  let (name, ts) ← expectName si ts
  let (ps, ts) ← p_parents si fuel ts
  let ts ← expectTok si .COLON ts
  let ts ← expectTok si .DEF ts
  let (n, ts) ← expectName si ts
  let (attrs, ts) ← interface_attrs_loop si fuel [⟨n⟩] ts
  pure (⟨name, ps, attrs, tmpl⟩, ts)

/-- An INTERFACE lookahead continues the interfacedefs run. -/
def interfacedefsStart : List Token → Bool
  | ⟨.INTERFACE, _, _⟩ :: _ => true
  | _ => false

/-- The interfacedefs nonterminal (src lines 219-226): a possibly empty run
of interfacedefs. -/
def interfacedefs_loop (si : SrcInfo) : Nat → List Interface → List Token →
    Except PyError (List Interface × List Token)
  | 0, _, _ => .error .outOfFuel
  | fuel + 1, acc, ts =>
    if interfacedefsStart ts then
      match p_interfacedef si fuel ts with
      | .error e => .error e
      | .ok (i, ts2) => interfacedefs_loop si fuel (acc ++ [i]) ts2
    else .ok (acc, ts)

/-- The start symbol defs (src lines 183-192): funcdefs classdefs
interfacedefs, in that fixed order, then end of input; the semantic action
builds TypeDeclUnit(p[3], p[2], p[1]) and hands it to the external
ExpandTemplates pass with an empty binding list.  A leftover token is a
parse error at that token; an accepted parse consumes everything. -/
def p_defs (si : SrcInfo) (fuel : Nat) (ts : List Token) : Except PyError TypeDeclUnit :=
  match funcdefs_loop si fuel [] ts with
  | .error e => .error e
  | .ok (fs, ts1) =>
    match classdefs_loop si fuel [] ts1 with
    | .error e => .error e
    | .ok (cs, ts2) =>
      match interfacedefs_loop si fuel [] ts2 with
      | .error e => .error e
      | .ok (ifs, ts3) =>
        match ts3 with
        | [] => .ok (ExpandTemplates (TypeDeclUnit.mk ifs cs fs) [])
        | _ => .error (perr si ts3)

/-- The Parse entry point (src lines 172-176): record data and filename (a
missing or empty filename becomes the placeholder), tokenize, parse.  The
fuel is an upper bound on recursion depth, ample for the token count. -/
def Parse (data : String) (filename : Option String) : Except PyError TypeDeclUnit :=
  let fname : String :=
    match filename with
    | none => "<string>"
    | some f => if f = "" then "<string>" else f
  let si : SrcInfo := ⟨data.toList, fname⟩
  match tokenizeStr data fname with
  | .error e => .error e
  | .ok toks => p_defs si (toks.length * 10 + 10) toks

/-! ## Derived notions used to state the claims -/

/-- Parse a source string as one type expression (the compound_type
nonterminal applied to its token stream), for stating concrete facts about
the type algebra. -/
def parse_type (s : String) : Except PyError (PyType × List Token) :=
  compound_type ⟨s.toList, "<string>"⟩ (s.length * 10 + 10) (lexed s)

/-- Parse a source string as one funcdef, for stating concrete facts about
function declarations. -/
def parse_funcdef (s : String) : Except PyError (Function × List Token) :=
  p_funcdef ⟨s.toList, "<string>"⟩ (s.length * 10 + 10) (lexed s)

/-- Modelled from the spec (section 4.2): the provenance vocabulary, mapping
each stored sentinel text to its documented tag name (no sentinel is the
approved/unset tag). -/
def specProvenanceTag (s : String) : String :=
  if s = "" then "approved"
  else if s = "..." then "inferred"
  else if s = "---" then "negated"
  else if s = "+++" then "locked"
  else "invalid"

/-- The function with its provenance field cleared, for stating that two
declarations agree on every other field. -/
def eraseProvenance (f : Function) : Function :=
  ⟨f.name, f.params, f.return_type, f.exceptions, f.template, "", f.signature⟩

/-- Shapes producible by the identifier nonterminal: a basic named type, a
nullable basic type, or a constant - and nothing else. -/
def identifierShape : PyType → Bool
  | .BasicType _ => true
  | .NoneAbleType (.BasicType _) => true
  | .ConstType _ => true
  | _ => false

mutual

/-- Every generic node anywhere in the type has an identifier-shaped base
(in particular never a union, an intersection, or a parenthesized compound
type, since parentheses introduce no node). -/
def goodBases : PyType → Bool
  | .BasicType _ => true
  | .NoneAbleType t => goodBases t
  | .ConstType _ => true
  | .UnionType l => goodBasesList l
  | .IntersectionType l => goodBasesList l
  | .GenericType1 b t1 => identifierShape b && goodBases t1
  | .GenericType2 b t1 t2 => identifierShape b && (goodBases t1 && goodBases t2)
  | .UnknownType => true
  | .OptionalUnknownType => true
  | .VarArgType => true
  | .VarKeywordArgType => true

/-- goodBases over every member of a list. -/
def goodBasesList : List PyType → Bool
  | [] => true
  | t :: ts => goodBases t && goodBasesList ts

end

/-- One item of a top-level funcdefs run: a function declaration or a
constant declaration. -/
inductive TopFC where
  | fn (f : Function)
  | ct (c : ConstantDef)

/-- The Function carried by a funcdefs-run item, if any (constants carry
none: they are dropped). -/
def TopFC.fnOf : TopFC → Option Function
  | .fn f => some f
  | .ct _ => none

/-- Derivation relation for a funcdefs run: from ts, the run parses the
listed declarations in source order, one step per declaration, and stops at
the first lookahead that starts neither a funcdef nor a constantdef,
leaving rest. -/
inductive FuncRun (si : SrcInfo) : Nat → List Token → List TopFC → List Token → Prop where
  | stop (fuel : Nat) (ts : List Token) :
      funcdefsHead ts = .stop → FuncRun si fuel ts [] ts
  | func (fuel : Nat) (ts : List Token) (f : Function) (ts2 : List Token)
      (ds : List TopFC) (rest : List Token) :
      funcdefsHead ts = .funcStart → p_funcdef si fuel ts = .ok (f, ts2) →
      FuncRun si fuel ts2 ds rest → FuncRun si (fuel + 1) ts (.fn f :: ds) rest
  | const (fuel : Nat) (ts : List Token) (c : ConstantDef) (ts2 : List Token)
      (ds : List TopFC) (rest : List Token) :
      funcdefsHead ts = .constStart → p_constantdef si fuel ts = .ok (c, ts2) →
      FuncRun si fuel ts2 ds rest → FuncRun si (fuel + 1) ts (.ct c :: ds) rest

/-- Derivation relation for a classdefs run: the listed classes in source
order, stopping at the first lookahead that is not CLASS. -/
inductive ClassRun (si : SrcInfo) : Nat → List Token → List Class → List Token → Prop where
  | stop (fuel : Nat) (ts : List Token) :
      classdefsStart ts = false → ClassRun si fuel ts [] ts
  | cls (fuel : Nat) (ts : List Token) (c : Class) (ts2 : List Token)
      (cs : List Class) (rest : List Token) :
      classdefsStart ts = true → p_classdef si fuel ts = .ok (c, ts2) →
      ClassRun si fuel ts2 cs rest → ClassRun si (fuel + 1) ts (c :: cs) rest

/-- Derivation relation for an interfacedefs run: the listed interfaces in
source order, stopping at the first lookahead that is not INTERFACE. -/
inductive IfaceRun (si : SrcInfo) : Nat → List Token → List Interface → List Token → Prop where
  | stop (fuel : Nat) (ts : List Token) :
      interfacedefsStart ts = false → IfaceRun si fuel ts [] ts
  | iface (fuel : Nat) (ts : List Token) (i : Interface) (ts2 : List Token)
      (is : List Interface) (rest : List Token) :
      interfacedefsStart ts = true → p_interfacedef si fuel ts = .ok (i, ts2) →
      IfaceRun si fuel ts2 is rest → IfaceRun si (fuel + 1) ts (i :: is) rest

/-! ## Helper lemmas -/

theorem goodBasesList_append (l1 l2 : List PyType) :
    goodBasesList (l1 ++ l2) = (goodBasesList l1 && goodBasesList l2) := by
  induction l1 with
  | nil => simp [goodBasesList]
  | cons t ts ih => simp [goodBasesList, ih, Bool.and_assoc]

theorem p_compound_type_union_good (t1 t3 : PyType)
    (h1 : goodBases t1 = true) (h3 : goodBases t3 = true) :
    goodBases (p_compound_type_union t1 t3) = true := by
  unfold p_compound_type_union
  split
  · next l n =>
    simp only [goodBases, goodBasesList_append, goodBasesList] at *
    simp [h1]
  · next n r =>
    simp only [goodBases, goodBasesList] at *
    simp [h3]
  · simp [goodBases, goodBasesList, h1, h3]

theorem p_compound_type_intersect_good (t1 t3 : PyType)
    (h1 : goodBases t1 = true) (h3 : goodBases t3 = true) :
    goodBases (p_compound_type_intersect t1 t3) = true := by
  unfold p_compound_type_intersect
  split
  · next l n =>
    simp only [goodBases, goodBasesList_append, goodBasesList] at *
    simp [h1]
  · next n r =>
    simp only [goodBases, goodBasesList] at *
    simp [h3]
  · simp [goodBases, goodBasesList, h1, h3]

theorem p_identifier_good (si : SrcInfo) (ts : List Token) (t : PyType) (r : List Token)
    (h : p_identifier si ts = .ok (t, r)) :
    identifierShape t = true ∧ goodBases t = true := by
  unfold p_identifier at h
  split at h
  all_goals cases h
  all_goals simp [identifierShape, goodBases]

/-- Every type produced by the compound_type family of parsers (at any fuel,
from any token stream) has identifier-shaped bases on all its generic
applications.  Proved by mutual induction on the fuel for all five
parsers. -/
theorem compound_good (fuel : Nat) (si : SrcInfo) :
    (∀ ts t r, type_atom si fuel ts = .ok (t, r) → goodBases t = true) ∧
    (∀ a ts t r, goodBases a = true → intersect_loop si fuel a ts = .ok (t, r) →
      goodBases t = true) ∧
    (∀ ts t r, intersect_chain si fuel ts = .ok (t, r) → goodBases t = true) ∧
    (∀ a ts t r, goodBases a = true → union_loop si fuel a ts = .ok (t, r) →
      goodBases t = true) ∧
    (∀ ts t r, compound_type si fuel ts = .ok (t, r) → goodBases t = true) := by
  induction fuel with
  | zero =>
    refine ⟨?_, ?_, ?_, ?_, ?_⟩ <;> intros <;>
      simp_all [type_atom, intersect_loop, intersect_chain, union_loop, compound_type]
  | succ n ih =>
    obtain ⟨iha, ihil, ihic, ihul, ihct⟩ := ih
    have atom : ∀ ts t r, type_atom si (n + 1) ts = .ok (t, r) → goodBases t = true := by
      intro ts t r h
      unfold type_atom at h
      split at h
      · -- parenthesized compound type: the inner type is returned unchanged
        split at h
        · exact absurd h (by simp)
        · rename_i t1 r2 heq
          split at h
          · exact absurd h (by simp)
          · cases h
            exact ihct _ _ _ heq
      · -- identifier, possibly with a bracket application
        split at h
        · exact absurd h (by simp)
        · rename_i idv r1 hid
          obtain ⟨hshape, hgood⟩ := p_identifier_good si _ _ _ hid
          split at h
          · -- LBRACKET follows: a generic application
            split at h
            · exact absurd h (by simp)
            · rename_i t1 r3 h1
              have hw := ihct _ _ _ h1
              split at h
              · -- COMMA: two type arguments
                split at h
                · exact absurd h (by simp)
                · rename_i t2 r5 h2
                  have hu := ihct _ _ _ h2
                  split at h
                  · exact absurd h (by simp)
                  · cases h
                    simp [goodBases, hshape, hw, hu]
              · -- one type argument
                split at h
                · exact absurd h (by simp)
                · cases h
                  simp [goodBases, hshape, hw]
          · -- no bracket: the identifier itself
            cases h
            exact hgood
    have iloop : ∀ a ts t r, goodBases a = true →
        intersect_loop si (n + 1) a ts = .ok (t, r) → goodBases t = true := by
      intro a ts t r ha h
      unfold intersect_loop at h
      split at h
      · split at h
        · exact absurd h (by simp)
        · rename_i u r2 h1
          exact ihil _ _ _ _
            (p_compound_type_intersect_good a u ha (iha _ _ _ h1)) h
      · cases h
        exact ha
    have ichain : ∀ ts t r, intersect_chain si (n + 1) ts = .ok (t, r) →
        goodBases t = true := by
      intro ts t r h
      unfold intersect_chain at h
      split at h
      · exact absurd h (by simp)
      · rename_i u r1 h1
        exact ihil _ _ _ _ (iha _ _ _ h1) h
    have uloop : ∀ a ts t r, goodBases a = true →
        union_loop si (n + 1) a ts = .ok (t, r) → goodBases t = true := by
      intro a ts t r ha h
      unfold union_loop at h
      split at h
      · split at h
        · exact absurd h (by simp)
        · rename_i u r2 h1
          exact ihul _ _ _ _
            (p_compound_type_union_good a u ha (ihic _ _ _ h1)) h
      · cases h
        exact ha
    refine ⟨atom, iloop, ichain, uloop, ?_⟩
    intro ts t r h
    unfold compound_type at h
    split at h
    · exact absurd h (by simp)
    · rename_i u r1 h1
      exact ihul _ _ _ _ (ihic _ _ _ h1) h

/-- A successful funcdefs run is exactly a FuncRun derivation: the output
list is the accumulator followed by the functions of the derivation's items
in source order, the constant items contributing nothing. -/
theorem funcdefs_loop_run (si : SrcInfo) (fuel : Nat) :
    ∀ (acc res : List Function) (ts rest : List Token),
      funcdefs_loop si fuel acc ts = .ok (res, rest) →
      ∃ ds, FuncRun si fuel ts ds rest ∧ res = acc ++ ds.filterMap TopFC.fnOf := by
  induction fuel with
  | zero =>
    intro acc res ts rest h
    simp [funcdefs_loop] at h
  | succ n ih =>
    intro acc res ts rest h
    unfold funcdefs_loop at h
    split at h
    · -- a funcdef starts here
      rename_i hhead
      split at h
      · exact absurd h (by simp)
      · rename_i f ts2 hf
        obtain ⟨ds, hrun, hres⟩ := ih (acc ++ [f]) res ts2 rest h
        refine ⟨.fn f :: ds, FuncRun.func n ts f ts2 ds rest hhead hf hrun, ?_⟩
        simp [hres, TopFC.fnOf]
    · -- a constantdef starts here and is dropped
      rename_i hhead
      split at h
      · exact absurd h (by simp)
      · rename_i c ts2 hc
        obtain ⟨ds, hrun, hres⟩ := ih acc res ts2 rest h
        exact ⟨.ct c :: ds, FuncRun.const n ts c ts2 ds rest hhead hc hrun,
          by simp [hres, TopFC.fnOf]⟩
    · -- the run stops
      rename_i hhead
      cases h
      exact ⟨[], FuncRun.stop (n + 1) ts hhead, by simp⟩

/-- A successful classdefs run is exactly a ClassRun derivation appended to
the accumulator. -/
theorem classdefs_loop_run (si : SrcInfo) (fuel : Nat) :
    ∀ (acc res : List Class) (ts rest : List Token),
      classdefs_loop si fuel acc ts = .ok (res, rest) →
      ∃ cs, ClassRun si fuel ts cs rest ∧ res = acc ++ cs := by
  induction fuel with
  | zero =>
    intro acc res ts rest h
    simp [classdefs_loop] at h
  | succ n ih =>
    intro acc res ts rest h
    unfold classdefs_loop at h
    split at h
    · rename_i hhead
      split at h
      · exact absurd h (by simp)
      · rename_i c ts2 hc
        obtain ⟨cs, hrun, hres⟩ := ih (acc ++ [c]) res ts2 rest h
        exact ⟨c :: cs, ClassRun.cls n ts c ts2 cs rest hhead hc hrun, by simp [hres]⟩
    · rename_i hhead
      cases h
      exact ⟨[], ClassRun.stop (n + 1) ts (by simpa using hhead), by simp⟩

/-- A successful interfacedefs run is exactly an IfaceRun derivation
appended to the accumulator. -/
theorem interfacedefs_loop_run (si : SrcInfo) (fuel : Nat) :
    ∀ (acc res : List Interface) (ts rest : List Token),
      interfacedefs_loop si fuel acc ts = .ok (res, rest) →
      ∃ ifs, IfaceRun si fuel ts ifs rest ∧ res = acc ++ ifs := by
  induction fuel with
  | zero =>
    intro acc res ts rest h
    simp [interfacedefs_loop] at h
  | succ n ih =>
    intro acc res ts rest h
    unfold interfacedefs_loop at h
    split at h
    · rename_i hhead
      split at h
      · exact absurd h (by simp)
      · rename_i i ts2 hi
        obtain ⟨ifs, hrun, hres⟩ := ih (acc ++ [i]) res ts2 rest h
        exact ⟨i :: ifs, IfaceRun.iface n ts i ts2 ifs rest hhead hi hrun, by simp [hres]⟩
    · rename_i hhead
      cases h
      exact ⟨[], IfaceRun.stop (n + 1) ts (by simpa using hhead), by simp⟩

/-! ## Claims -/

/-- C1 counterexample: the claim states that parsing the type expression
A|(B|C) yields a union node [A, union[B,C]] with the nesting preserved; in
fact the semantic action's prepend branch (left operand a BasicType, right
operand a UnionType) absorbs the parenthesized union, and the parse yields
the flat union [A, B, C], which is not the claimed nested value. -/
theorem C1_counterexample :
    parse_type "A|(B|C)" =
      .ok (.UnionType [.BasicType "A", .BasicType "B", .BasicType "C"], []) ∧
    PyType.UnionType [.BasicType "A", .BasicType "B", .BasicType "C"] ≠
      .UnionType [.BasicType "A", .UnionType [.BasicType "B", .BasicType "C"]] :=
  ⟨rfl, by simp⟩

/-- C1 (amended): parsing A|B|C (no parentheses) yields a single union node
listing exactly [A, B, C] in source order, not a nested pair; and parsing
A|(B|C) yields the same flat union [A, B, C] - the nesting is NOT preserved
when the right operand is parenthesized, because the prepend branch of
p_compound_type_union splices the right union's members after the basic
left operand. -/
theorem C1_theorem :
    parse_type "A|B|C" =
      .ok (.UnionType [.BasicType "A", .BasicType "B", .BasicType "C"], []) ∧
    parse_type "A|(B|C)" =
      .ok (.UnionType [.BasicType "A", .BasicType "B", .BasicType "C"], []) :=
  ⟨rfl, rfl⟩

/-- C2 counterexample: the claim states that when the left operand is a flat
union and the right operand is any single non-list operand - including a
nullable C? - the right operand is appended to the flat list; in fact
p_compound_type_union appends only a BasicType right operand, so A|B|C?
parses to the nested union [union[A,B], C?], not the claimed flat
[A, B, C?]. -/
theorem C2_counterexample :
    parse_type "A|B|C?" =
      .ok (.UnionType [.UnionType [.BasicType "A", .BasicType "B"],
        .NoneAbleType (.BasicType "C")], []) ∧
    PyType.UnionType [.UnionType [.BasicType "A", .BasicType "B"],
        .NoneAbleType (.BasicType "C")] ≠
      .UnionType [.BasicType "A", .BasicType "B", .NoneAbleType (.BasicType "C")] :=
  ⟨rfl, by simp⟩

/-- C2 (amended): in a binary application of the same operator, the right
operand is appended to a flat left list only when the right operand is a
bare basic named type (not a nullable, constant, generic, or list operand);
symmetrically the left operand is prepended to a flat right list only when
the left operand is a bare basic named type; in every other combination a
new 2-element list wraps both sides.  Stated for both union and
intersection actions. -/
theorem C2_theorem (ls rs : List PyType) (n : String) (t : PyType)
    (hnb : ∀ m, t ≠ .BasicType m) :
    (p_compound_type_union (.UnionType ls) (.BasicType n) =
      .UnionType (ls ++ [.BasicType n])) ∧
    (p_compound_type_union (.BasicType n) (.UnionType rs) =
      .UnionType (.BasicType n :: rs)) ∧
    (p_compound_type_union (.UnionType ls) t = .UnionType [.UnionType ls, t]) ∧
    (p_compound_type_union t (.UnionType rs) = .UnionType [t, .UnionType rs]) ∧
    (p_compound_type_intersect (.IntersectionType ls) (.BasicType n) =
      .IntersectionType (ls ++ [.BasicType n])) ∧
    (p_compound_type_intersect (.BasicType n) (.IntersectionType rs) =
      .IntersectionType (.BasicType n :: rs)) ∧
    (p_compound_type_intersect (.IntersectionType ls) t =
      .IntersectionType [.IntersectionType ls, t]) ∧
    (p_compound_type_intersect t (.IntersectionType rs) =
      .IntersectionType [t, .IntersectionType rs]) := by
  refine ⟨rfl, rfl, ?_, ?_, rfl, rfl, ?_, ?_⟩ <;>
    cases t <;> first | rfl | exact absurd rfl (hnb _)

/-- C2 witness: the amended rule applied at concrete operands - a flat
union on the left and a nullable operand on the right wrap instead of
appending. -/
theorem C2_witness :
    (∀ m, PyType.NoneAbleType (.BasicType "C") ≠ .BasicType m) ∧
    p_compound_type_union (.UnionType [.BasicType "A", .BasicType "B"])
        (.NoneAbleType (.BasicType "C")) =
      .UnionType [.UnionType [.BasicType "A", .BasicType "B"],
        .NoneAbleType (.BasicType "C")] :=
  ⟨fun _ => by simp,
    (C2_theorem [.BasicType "A", .BasicType "B"] [] "n"
      (.NoneAbleType (.BasicType "C")) (fun _ => by simp)).2.2.1⟩

/-- C3: the positive shape of the claim holds - (a, b: int, *args, **kwargs)
parses to four parameters in order with types [unknown, int, vararg,
kwarg] - but the negative shape fails on the code: (**kwargs, *args), with
the kwarg before the vararg, is accepted by the grammar (the left-recursive
production params COMMA arg applies with params derived from kwarg) and
produces the two parameters in that order, where the claim requires a parse
failure. -/
theorem C3_theorem :
    parse_funcdef "def f(a, b: int, *args, **kwargs)" =
      .ok (⟨"f", [⟨"a", .UnknownType⟩, ⟨"b", .BasicType "int"⟩,
        ⟨"args", .VarArgType⟩, ⟨"kwargs", .VarKeywordArgType⟩],
        .BasicType "None", [], [], "", none⟩, []) ∧
    parse_funcdef "def f(**kwargs, *args)" =
      .ok (⟨"f", [⟨"kwargs", .VarKeywordArgType⟩, ⟨"args", .VarArgType⟩],
        .BasicType "None", [], [], "", none⟩, []) :=
  ⟨rfl, rfl⟩

/-- C4: a mid-stream syntax error and a lexical error do propagate as a
single error value carrying message, placeholder source name, 1-based line,
1-based column and the offending line's text; but when the token stream
ends prematurely the parse entry point raises an AttributeError carrying
none of that, because p_error receives None at end of input and
make_syntax_error dereferences its lexpos - the claimed end-of-input
position report does not happen. -/
theorem C4_theorem :
    Parse "def f(" none = .error .attributeError ∧
    Parse "def f()\ndef g(]" none =
      .error (.syntaxError "Parse error" "<string>" 2 7 "def g(]") ∧
    Parse "def f(%)" none =
      .error (.syntaxError "Illegal character '%'" "<string>" 1 7 "def f(%)") :=
  ⟨rfl, rfl, rfl⟩

/-- C5: parsing def f(), ...def f(), ---def f(), +++def f() yields Function
nodes whose provenance fields hold the unset value and the three stored
3-character sentinels, which the spec vocabulary names approved, inferred,
negated and locked respectively; erasing the provenance field makes all
four functions equal, so every other field agrees. -/
theorem C5_theorem :
    parse_funcdef "def f()" =
      .ok (⟨"f", [], .BasicType "None", [], [], "", none⟩, []) ∧
    parse_funcdef "...def f()" =
      .ok (⟨"f", [], .BasicType "None", [], [], "...", none⟩, []) ∧
    parse_funcdef "---def f()" =
      .ok (⟨"f", [], .BasicType "None", [], [], "---", none⟩, []) ∧
    parse_funcdef "+++def f()" =
      .ok (⟨"f", [], .BasicType "None", [], [], "+++", none⟩, []) ∧
    specProvenanceTag "" = "approved" ∧ specProvenanceTag "..." = "inferred" ∧
    specProvenanceTag "---" = "negated" ∧ specProvenanceTag "+++" = "locked" ∧
    eraseProvenance ⟨"f", [], .BasicType "None", [], [], "...", none⟩ =
      ⟨"f", [], .BasicType "None", [], [], "", none⟩ ∧
    eraseProvenance ⟨"f", [], .BasicType "None", [], [], "---", none⟩ =
      ⟨"f", [], .BasicType "None", [], [], "", none⟩ ∧
    eraseProvenance ⟨"f", [], .BasicType "None", [], [], "+++", none⟩ =
      ⟨"f", [], .BasicType "None", [], [], "", none⟩ ∧
    "...".length = 3 ∧ "---".length = 3 ∧ "+++".length = 3 :=
  ⟨rfl, rfl, rfl, rfl, rfl, rfl, rfl, rfl, rfl, rfl, rfl, rfl, rfl, rfl⟩

/-- C6 counterexample: the claim states that the left operand of every
accepted generic bracket application is a bare identifier, a basic named
type; in fact the grammar's identifier nonterminal also covers nullable
names and constants, so A?[B] is accepted with the nullable type A? as the
base, which is not a basic named type. -/
theorem C6_counterexample :
    parse_type "A?[B]" =
      .ok (.GenericType1 (.NoneAbleType (.BasicType "A")) (.BasicType "B"), []) ∧
    (∀ n, PyType.NoneAbleType (.BasicType "A") ≠ .BasicType n) :=
  ⟨rfl, fun _ => by simp⟩

/-- C6 (amended): for every type the compound_type grammar accepts, the base
of every generic bracket application in it is a value of the identifier
nonterminal - a basic named type, a nullable basic type, or a constant -
and never an arbitrary compound type such as a union, an intersection, or a
parenthesized expression (parentheses introduce no node, and a
parenthesized operand cannot be a bracket base). -/
theorem C6_theorem (si : SrcInfo) (fuel : Nat) (ts : List Token) (t : PyType)
    (r : List Token) (h : compound_type si fuel ts = .ok (t, r)) :
    goodBases t = true :=
  (compound_good fuel si).2.2.2.2 ts t r h

/-- C6 witness: the amended statement applied to the concrete type
expression A?[B]|C. -/
theorem C6_witness :
    compound_type ⟨"A?[B]|C".toList, "<string>"⟩ 100 (lexed "A?[B]|C") =
      .ok (.UnionType [.GenericType1 (.NoneAbleType (.BasicType "A"))
        (.BasicType "B"), .BasicType "C"], []) ∧
    goodBases (.UnionType [.GenericType1 (.NoneAbleType (.BasicType "A"))
        (.BasicType "B"), .BasicType "C"]) = true :=
  ⟨rfl, C6_theorem ⟨"A?[B]|C".toList, "<string>"⟩ 100 (lexed "A?[B]|C") _ _ rfl⟩

/-- C7: generic types take exactly one or exactly two type arguments:
Foo[int] yields a 1-argument generic with base Foo and argument int,
Dict[str,int] yields a 2-argument generic, and Foo[int,str,bool] fails to
parse (the error is reported at the second comma), both for a bare type
expression and through the parse entry point. -/
theorem C7_theorem :
    parse_type "Foo[int]" =
      .ok (.GenericType1 (.BasicType "Foo") (.BasicType "int"), []) ∧
    parse_type "Dict[str,int]" =
      .ok (.GenericType2 (.BasicType "Dict") (.BasicType "str") (.BasicType "int"), []) ∧
    parse_type "Foo[int,str,bool]" =
      .error (.syntaxError "Parse error" "<string>" 1 12 "Foo[int,str,bool]") ∧
    Parse "def f() -> Foo[int,str,bool]" none =
      .error (.syntaxError "Parse error" "<string>" 1 23 "def f() -> Foo[int,str,bool]") :=
  ⟨rfl, rfl, rfl, rfl⟩

/-- C8: every accepted token stream decomposes into three grouped runs in
the fixed order functions (with interleaved, dropped constants), then
classes, then interfaces, each possibly empty and never interleaved, the
third run consuming the whole remainder; the Module's three lists are
exactly the declarations of the corresponding runs, in source order. -/
theorem C8_theorem (si : SrcInfo) (fuel : Nat) (ts : List Token) (m : TypeDeclUnit)
    (h : p_defs si fuel ts = .ok m) :
    ∃ ds cs ifs ts1 ts2,
      FuncRun si fuel ts ds ts1 ∧ ClassRun si fuel ts1 cs ts2 ∧
      IfaceRun si fuel ts2 ifs [] ∧
      m.funcdefs = ds.filterMap TopFC.fnOf ∧ m.classdefs = cs ∧
      m.interfacedefs = ifs := by
  unfold p_defs at h
  split at h
  · exact absurd h (by simp)
  · rename_i fs ts1 h1
    split at h
    · exact absurd h (by simp)
    · rename_i cs ts2 h2
      split at h
      · exact absurd h (by simp)
      · rename_i ifs ts3 h3
        split at h
        · -- no leftover token: the module is built and expanded
          cases h
          obtain ⟨ds, hdr, hds⟩ := funcdefs_loop_run si fuel [] fs ts ts1 h1
          obtain ⟨cs2, hcr, hcs⟩ := classdefs_loop_run si fuel [] cs ts1 ts2 h2
          obtain ⟨ifs2, hir, hifs⟩ := interfacedefs_loop_run si fuel [] ifs ts2 [] h3
          refine ⟨ds, cs2, ifs2, ts1, ts2, hdr, hcr, hir, ?_, ?_, ?_⟩ <;>
            simp [ExpandTemplates, hds, hcs, hifs]
        · exact absurd h (by simp)

/-- C8 witness: the decomposition applied to a concrete module with two
functions, one interleaved constant, one class and one interface. -/
theorem C8_witness :
    p_defs ⟨"def f() x: int def g() class C: pass interface I: def m".toList, "<string>"⟩
        300 (lexed "def f() x: int def g() class C: pass interface I: def m") =
      .ok ⟨[⟨"I", [], [⟨"m"⟩], []⟩], [⟨"C", [], [], []⟩],
        [⟨"f", [], .BasicType "None", [], [], "", none⟩,
         ⟨"g", [], .BasicType "None", [], [], "", none⟩]⟩ ∧
    (∃ ds cs ifs ts1 ts2,
      FuncRun ⟨"def f() x: int def g() class C: pass interface I: def m".toList, "<string>"⟩
        300 (lexed "def f() x: int def g() class C: pass interface I: def m") ds ts1 ∧
      ClassRun ⟨"def f() x: int def g() class C: pass interface I: def m".toList, "<string>"⟩
        300 ts1 cs ts2 ∧
      IfaceRun ⟨"def f() x: int def g() class C: pass interface I: def m".toList, "<string>"⟩
        300 ts2 ifs [] ∧
      (TypeDeclUnit.mk [⟨"I", [], [⟨"m"⟩], []⟩] [⟨"C", [], [], []⟩]
        [⟨"f", [], .BasicType "None", [], [], "", none⟩,
         ⟨"g", [], .BasicType "None", [], [], "", none⟩]).funcdefs =
        ds.filterMap TopFC.fnOf ∧
      (TypeDeclUnit.mk [⟨"I", [], [⟨"m"⟩], []⟩] [⟨"C", [], [], []⟩]
        [⟨"f", [], .BasicType "None", [], [], "", none⟩,
         ⟨"g", [], .BasicType "None", [], [], "", none⟩]).classdefs = cs ∧
      (TypeDeclUnit.mk [⟨"I", [], [⟨"m"⟩], []⟩] [⟨"C", [], [], []⟩]
        [⟨"f", [], .BasicType "None", [], [], "", none⟩,
         ⟨"g", [], .BasicType "None", [], [], "", none⟩]).interfacedefs = ifs) :=
  ⟨rfl, C8_theorem _ 300 _ _ rfl⟩

/-- C9: a module-level constant declaration is accepted and leaves the
Module unchanged: whenever a constantdef parses at the head of a funcdefs
run, the run's result is the same as the run on the remaining tokens - the
constant's data never enters the output - and concretely a source of just
x: int yields the empty Module while a constant between two functions
leaves exactly those functions. -/
theorem C9_theorem :
    (∀ (si : SrcInfo) (fuel : Nat) (acc : List Function) (n : String)
      (ln lp : Nat) (rest : List Token) (c : ConstantDef) (ts2 : List Token),
      p_constantdef si fuel (⟨.NAME n, ln, lp⟩ :: rest) = .ok (c, ts2) →
      funcdefs_loop si (fuel + 1) acc (⟨.NAME n, ln, lp⟩ :: rest) =
        funcdefs_loop si fuel acc ts2) ∧
    Parse "x: int" none = .ok ⟨[], [], []⟩ ∧
    Parse "def f() x: int def g()" none =
      .ok ⟨[], [], [⟨"f", [], .BasicType "None", [], [], "", none⟩,
        ⟨"g", [], .BasicType "None", [], [], "", none⟩]⟩ := by
  refine ⟨?_, rfl, rfl⟩
  intro si fuel acc n ln lp rest c ts2 hc
  simp only [funcdefs_loop, funcdefsHead, hc]

/-- C9 witness: the frame equation applied at a concrete constant
declaration followed by a function. -/
theorem C9_witness :
    p_constantdef ⟨[], "<string>"⟩ 50
        [⟨.NAME "x", 1, 0⟩, ⟨.COLON, 1, 1⟩, ⟨.NAME "int", 1, 3⟩, ⟨.DEF, 1, 7⟩] =
      .ok (⟨"x", ":"⟩, [⟨.DEF, 1, 7⟩]) ∧
    funcdefs_loop ⟨[], "<string>"⟩ 51 []
        [⟨.NAME "x", 1, 0⟩, ⟨.COLON, 1, 1⟩, ⟨.NAME "int", 1, 3⟩, ⟨.DEF, 1, 7⟩] =
      funcdefs_loop ⟨[], "<string>"⟩ 50 [] [⟨.DEF, 1, 7⟩] :=
  ⟨rfl, C9_theorem.1 ⟨[], "<string>"⟩ 50 [] "x" 1 0
    [⟨.COLON, 1, 1⟩, ⟨.NAME "int", 1, 3⟩, ⟨.DEF, 1, 7⟩] ⟨"x", ":"⟩ [⟨.DEF, 1, 7⟩] rfl⟩

/-- C10: every accepted vararg parameter is ASTERISK followed by a full
inner param - which may carry a type annotation or a question mark - and
the result keeps only the inner param's name with exactly the vararg marker
as its type; likewise for kwarg with two ASTERISK tokens and the kwarg
marker; concretely, def f(*args: int, **kw: str) parses with the inner
types int and str discarded, and def f(*args?) likewise. -/
theorem C10_theorem :
    (∀ (si : SrcInfo) (fuel : Nat) (ts : List Token) (q : Parameter)
      (rest : List Token),
      p_arg si fuel ts = .ok (q, rest) →
      ∃ tk ts1 p, ts = tk :: ts1 ∧ Token.tok tk = .ASTERISK ∧
        p_param si fuel ts1 = .ok (p, rest) ∧ q = ⟨p.name, .VarArgType⟩) ∧
    (∀ (si : SrcInfo) (fuel : Nat) (ts : List Token) (q : Parameter)
      (rest : List Token),
      p_kwarg si fuel ts = .ok (q, rest) →
      ∃ tk ts1 r2 p, ts = tk :: ts1 ∧ Token.tok tk = .ASTERISK ∧
        expectTok si .ASTERISK ts1 = .ok r2 ∧
        p_param si fuel r2 = .ok (p, rest) ∧ q = ⟨p.name, .VarKeywordArgType⟩) ∧
    parse_funcdef "def f(*args: int, **kw: str)" =
      .ok (⟨"f", [⟨"args", .VarArgType⟩, ⟨"kw", .VarKeywordArgType⟩],
        .BasicType "None", [], [], "", none⟩, []) ∧
    parse_funcdef "def f(*args?)" =
      .ok (⟨"f", [⟨"args", .VarArgType⟩], .BasicType "None", [], [], "", none⟩, []) := by
  refine ⟨?_, ?_, rfl, rfl⟩
  · intro si fuel ts q rest h
    unfold p_arg at h
    split at h
    · rename_i ln lp r
      split at h
      · exact absurd h (by simp)
      · rename_i p r2 hp
        cases h
        exact ⟨⟨.ASTERISK, ln, lp⟩, r, p, rfl, rfl, hp, rfl⟩
    · exact absurd h (by simp)
  · intro si fuel ts q rest h
    unfold p_kwarg at h
    split at h
    · rename_i ln lp r
      split at h
      · exact absurd h (by simp)
      · rename_i r2 he
        split at h
        · exact absurd h (by simp)
        · rename_i p r3 hp
          cases h
          exact ⟨⟨.ASTERISK, ln, lp⟩, r, r2, p, rfl, rfl, he, hp, rfl⟩
    · exact absurd h (by simp)

/-- C10 witness: the vararg characterization applied at a concrete token
list. -/
theorem C10_witness :
    p_arg ⟨[], "<string>"⟩ 9
        [⟨.ASTERISK, 1, 0⟩, ⟨.NAME "x", 1, 1⟩, ⟨.COLON, 1, 2⟩, ⟨.NAME "int", 1, 4⟩] =
      .ok (⟨"x", .VarArgType⟩, []) ∧
    (∃ tk ts1 p,
      ([⟨.ASTERISK, 1, 0⟩, ⟨.NAME "x", 1, 1⟩, ⟨.COLON, 1, 2⟩,
        ⟨.NAME "int", 1, 4⟩] : List Token) = tk :: ts1 ∧
      Token.tok tk = .ASTERISK ∧
      p_param ⟨[], "<string>"⟩ 9 ts1 = .ok (p, []) ∧
      Parameter.mk "x" .VarArgType = ⟨p.name, .VarArgType⟩) :=
  ⟨rfl, C10_theorem.1 ⟨[], "<string>"⟩ 9 _ _ _ rfl⟩

end Pytd
